import Mathlib

/-!
Shallow embedding of the Email Behavior Orchestrator core
(`src/ai_model.py`, `src/gemini_classifier.py`, `src/analyze_predictions.py`,
`src/app.py`) and proofs about the spec's claims.

Strings are modelled over their character lists.  ASCII semantics are used
for lowercasing, digits and word characters (the Python code applies the
corresponding operations with `str.lower`, `\d`, `\w`, `string.punctuation`;
all category names, boilerplate tokens and rule-table keys are ASCII).
-/

namespace EBO

/-- Python whitespace characters (`\s`, `str.strip`): space, tab, newline,
carriage return, vertical tab, form feed. -/
def pyIsSpace (c : Char) : Bool :=
  let n := c.toNat
  n == 32 || n == 9 || n == 10 || n == 13 || n == 11 || n == 12

/-- `string.punctuation`: the 32 ASCII punctuation characters, by code point
(33-47, 58-64, 91-96, 123-126). -/
def isPyPunct (c : Char) : Bool :=
  let n := c.toNat
  (33 ≤ n && n ≤ 47) || (58 ≤ n && n ≤ 64) || (91 ≤ n && n ≤ 96) || (123 ≤ n && n ≤ 126)

/-- ASCII lowercasing of a character list (`str.lower` on the texts the
system handles). -/
def lowerL (s : List Char) : List Char :=
  s.map Char.toLower

/-- The boilerplate alternatives of `clean_text`'s first substitution, in the
order they appear in the regex `(from:|to:|cc:|thanks|regards|sincerely|dear|best)`. -/
def TOKENS : List (List Char) :=
  ["from:".data, "to:".data, "cc:".data, "thanks".data, "regards".data,
   "sincerely".data, "dear".data, "best".data]

/-- Length of the first boilerplate token matching at the head of `s`
(regex alternation tries the alternatives in order). -/
def tokenLenAt (s : List Char) : Option Nat :=
  (TOKENS.find? (fun t => t.isPrefixOf s)).map List.length

/-- One pass of `re.sub(r"(from:|to:|cc:|thanks|regards|sincerely|dear|best)", " ", text)`:
scan left to right, replace each non-overlapping match by one space and
continue after it.  `fuel` bounds the recursion; each step consumes at least
one character, so `fuel = s.length` always suffices. -/
def subTokensF : Nat → List Char → List Char
  | 0, s => s
  | _ + 1, [] => []
  | fuel + 1, c :: rest =>
    match tokenLenAt (c :: rest) with
    | some (n + 1) => ' ' :: subTokensF fuel (rest.drop n)
    | _ => c :: subTokensF fuel rest

/-- `re.sub` of the boilerplate tokens over a whole character list. -/
def subTokensL (s : List Char) : List Char :=
  subTokensF s.length s

/-- Does a match of `http\S+|www\S+` start at this position?  The prefix
must be followed by at least one non-space character. -/
def urlStart (s : List Char) : Bool :=
  ("http".data.isPrefixOf s && (match s.drop 4 with
     | [] => false
     | c :: _ => !(pyIsSpace c))) ||
  ("www".data.isPrefixOf s && (match s.drop 3 with
     | [] => false
     | c :: _ => !(pyIsSpace c)))

/-- `re.sub(r"http\S+|www\S+", " ", text)`.  A match extends over the whole
maximal non-space run from its start (greedy `\S+`), tracked by the `skip`
flag: once inside a match, characters are consumed until the next space. -/
def urlSubAux : Bool → List Char → List Char
  | _, [] => []
  | skip, c :: rest =>
    if skip && !(pyIsSpace c) then urlSubAux true rest
    else if urlStart (c :: rest) then ' ' :: urlSubAux true rest
    else c :: urlSubAux false rest

/-- URL removal over a character list. -/
def urlSubL (s : List Char) : List Char :=
  urlSubAux false s

/-- `re.sub(r"\d+", " ", text)`: each maximal digit run becomes one space.
The flag records whether the previous character was part of a digit run. -/
def digitSubAux : Bool → List Char → List Char
  | _, [] => []
  | inRun, c :: rest =>
    if c.isDigit then
      if inRun then digitSubAux true rest else ' ' :: digitSubAux true rest
    else c :: digitSubAux false rest

/-- Digit-run removal over a character list. -/
def digitSubL (s : List Char) : List Char :=
  digitSubAux false s

/-- `text.translate(str.maketrans("", "", string.punctuation))`: delete the
punctuation characters (no replacement). -/
def filterPunctL (s : List Char) : List Char :=
  s.filter (fun c => !(isPyPunct c))

/-- `re.sub(r"\s+", " ", text)`: each maximal whitespace run becomes one
space. -/
def collapseWsAux : Bool → List Char → List Char
  | _, [] => []
  | inRun, c :: rest =>
    if pyIsSpace c then
      if inRun then collapseWsAux true rest else ' ' :: collapseWsAux true rest
    else c :: collapseWsAux false rest

/-- `str.strip()`: drop whitespace from both ends. -/
def stripWsL (s : List Char) : List Char :=
  ((s.dropWhile pyIsSpace).reverse.dropWhile pyIsSpace).reverse

/-- Whitespace collapse followed by strip (the last two steps of
`clean_text`). -/
def collapseStripL (s : List Char) : List Char :=
  stripWsL (collapseWsAux false s)

/-- Stage 1 of `clean_text` as a string function: `text.lower()`. -/
def lowerStr (s : String) : String := ⟨lowerL s.data⟩

/-- Stage 2 of `clean_text`: boilerplate-token removal. -/
def subTokensStr (s : String) : String := ⟨subTokensL s.data⟩

/-- Stage 3 of `clean_text`: URL removal. -/
def urlSubStr (s : String) : String := ⟨urlSubL s.data⟩

/-- Stage 4 of `clean_text`: digit-run removal. -/
def digitSubStr (s : String) : String := ⟨digitSubL s.data⟩

/-- Stage 5 of `clean_text`: punctuation deletion. -/
def filterPunctStr (s : String) : String := ⟨filterPunctL s.data⟩

/-- Stage 6 of `clean_text`: whitespace collapse and strip. -/
def collapseStripStr (s : String) : String := ⟨collapseStripL s.data⟩

/-- `clean_text` from `src/ai_model.py` (lines 22-33): lowercase, strip
boilerplate tokens, strip URLs, strip digit runs, delete punctuation,
collapse whitespace, trim. -/
def clean_text (s : String) : String :=
  collapseStripStr (filterPunctStr (digitSubStr (urlSubStr (subTokensStr (lowerStr s)))))

/-- The value found in a thread's `messages` field: either not a list at all
(missing / non-list JSON value) or a list of message strings. -/
inductive MsgsVal where
  | notList : MsgsVal
  | strList : List String → MsgsVal
deriving DecidableEq

/-- `src/ai_model.py` line 18:
`msgs[-1] if isinstance(msgs, list) and msgs else ""` — the last message of
a non-empty list, the empty string otherwise. -/
def email_text : MsgsVal → String
  | MsgsVal.notList => ""
  | MsgsVal.strList l => (l.getLast?).getD ""

/-- `CATEGORIES` from `src/gemini_classifier.py` line 16, in definition
order. -/
def CATEGORIES : List String :=
  ["Confirmation", "Objection", "Escalation", "New Information", "Unknown"]

/-- A regex word character (`\w`, ASCII): letter, digit or underscore. -/
def isWordChar (c : Char) : Bool :=
  c.isAlphanum || c == '_'

/-- Does pattern `p` match at the head of `s` with word boundaries on both
sides?  `prev` is the character just before this position (`none` at the
start of the text).  The patterns used start and end with word characters,
so `\b` holds exactly when the adjacent character is absent or non-word. -/
def matchWordAt (p s : List Char) (prev : Option Char) : Bool :=
  p.isPrefixOf s &&
  (match prev with | none => true | some c => !(isWordChar c)) &&
  (match s.drop p.length with | [] => true | c :: _ => !(isWordChar c))

/-- Scan `s` for a word-bounded occurrence of `p` (the `re.search` of
`gemini_classify`), carrying the previous character. -/
def wordScanAux (p : List Char) : Option Char → List Char → Bool
  | prev, [] => matchWordAt p [] prev
  | prev, c :: rest => matchWordAt p (c :: rest) prev || wordScanAux p (some c) rest

/-- `re.search(rf"\b{cat.lower()}\b", text.lower())` is truthy: the category
name occurs in the text as a case-insensitive whole-word match. -/
def wordOccursCI (cat text : String) : Bool :=
  wordScanAux (lowerL cat.data) none (lowerL text.data)

/-- The category loop of `gemini_classify` (`src/gemini_classifier.py`
lines 61-65): return the first category of the list that word-matches the
text; if none does, return `"Unknown"`. -/
def findCat : List String → String → String
  | [], _ => "Unknown"
  | c :: cs, t => if wordOccursCI c t then c else findCat cs t

/-- Category extraction from a raw remote response. -/
def geminiExtract (text : String) : String :=
  findCat CATEGORIES text

/-- `str.strip()` on a string. -/
def pyStripStr (s : String) : String := ⟨stripWsL s.data⟩

/-- Outcome of the remote `model.generate_content` call as the surrounding
code can observe it: the call raised an exception; it returned a falsy
response or one without a `text` attribute; or it returned response text. -/
inductive RemoteOutcome where
  | raised : RemoteOutcome
  | noText : RemoteOutcome
  | text : String → RemoteOutcome
deriving DecidableEq

/-- `gemini_classify` from `src/gemini_classifier.py` lines 37-65, as a
function of the remote outcome.  There is no `try`/`except` in the source:
a raised exception propagates (`Except.error`); a falsy or text-less
response is replaced by the string `"Unknown"`; otherwise the stripped
response text goes through the category loop. -/
def geminiClassify : RemoteOutcome → Except Unit String
  | RemoteOutcome.raised => Except.error ()
  | RemoteOutcome.noText => Except.ok (geminiExtract "Unknown")
  | RemoteOutcome.text s => Except.ok (geminiExtract (pyStripStr s))

/-- The labeling loop of `run_pipeline` (`src/gemini_classifier.py` lines
81-84): classify each thread in order, collecting the labels.  The loop has
no exception handler, so an error from any call aborts the whole batch. -/
def runPipelineLabels : List RemoteOutcome → Except Unit (List String)
  | [] => Except.ok []
  | o :: os =>
    match geminiClassify o with
    | Except.error e => Except.error e
    | Except.ok l =>
      match runPipelineLabels os with
      | Except.error e => Except.error e
      | Except.ok ls => Except.ok (l :: ls)

/-- `BEHAVIOR_TO_ACTION` from `src/gemini_classifier.py` lines 18-24 (the
same table appears in `src/analyze_predictions.py` lines 12-18). -/
def BEHAVIOR_TO_ACTION : List (String × String) :=
  [("Confirmation", "Close Ticket"), ("Objection", "Request Clarification"),
   ("Escalation", "Forward to Manager"), ("New Information", "Update Records"),
   ("Unknown", "Review Manually")]

/-- Python `dict` lookup (`rules[label]` when present): association-list
lookup on the key. -/
def lookupRule (rules : List (String × String)) (label : String) : Option String :=
  (rules.find? (fun p => p.1 == label)).map Prod.snd

/-- `rules.get(label, "Review Manually")` — the action resolution of
`src/app.py` lines 282 and 303 and `src/analyze_predictions.py` line 51. -/
def resolve (label : String) (rules : List (String × String)) : String :=
  (lookupRule rules label).getD "Review Manually"

/-- The default rule table written by `run_orchestrator_app` when no rules
file exists (`src/app.py` lines 89-98). -/
def defaultRules : List (String × String) :=
  [("Confirmation", "Close Ticket"), ("Objection", "Escalate to Manager"),
   ("New Information", "Request Additional Information"),
   ("Question", "Assign to Agent"), ("Other", "No Action")]

/-- `list(set(rules.values())) + ["No Action"]` (`src/app.py` line 342):
the actions offered by the override dropdown.  Python's `set` has no
ordering guarantee; only membership matters here. -/
def overrideOptions (rules : List (String × String)) : List String :=
  (rules.map Prod.snd).eraseDups ++ ["No Action"]

/-- One record of the decision ledger (`src/app.py` lines 333-338 and
346-351). -/
structure DecisionEntry where
  thread_id : String
  ai_suggestion : String
  final_action : String
  decision_status : String
  user_id : String
  timestamp : String
  ai_confidence : Nat
deriving DecidableEq

/-- The entry built by the `Approve Suggested Action` button (`src/app.py`
lines 331-338): `action_to_perform` is the thread's suggested action, so
`final_action` always equals `ai_suggestion`, and the status is
`"Approved"`. -/
def approveEntry (threadId suggestion userId ts : String) (conf : Nat) : DecisionEntry :=
  { thread_id := threadId, ai_suggestion := suggestion, final_action := suggestion,
    decision_status := "Approved", user_id := userId, timestamp := ts,
    ai_confidence := conf }

/-- The entry built by the `Save Override` button (`src/app.py` lines
344-351): `final_action` is whatever action the dropdown selected, and the
status is `"Overridden"` regardless of whether that action equals the
suggestion. -/
def overrideEntry (threadId suggestion override userId ts : String) (conf : Nat) :
    DecisionEntry :=
  { thread_id := threadId, ai_suggestion := suggestion, final_action := override,
    decision_status := "Overridden", user_id := userId, timestamp := ts,
    ai_confidence := conf }

/-- `log.append(entry)` followed by `json.dump(log, f)` (`src/app.py` lines
339-340 and 352-353): the whole list, with the new entry at the end, is
rewritten to the ledger file. -/
def appendDecision (log : List DecisionEntry) (e : DecisionEntry) : List DecisionEntry :=
  log ++ [e]

/-- `len(log_df[log_df['decision_status'] == 'Overridden'])`. -/
def countOverridden (log : List DecisionEntry) : Nat :=
  (log.filter (fun e => e.decision_status == "Overridden")).length

/-- The dashboard accuracy metric (`src/app.py` lines 229-237): the
percentage `(decisions - overridden) / decisions * 100` when at least one
decision is logged, and the placeholder `"N/A"` (modelled as `none`)
otherwise. -/
def dashboardAccuracy (log : List DecisionEntry) : Option ℚ :=
  if log.length > 0 then
    some ((((log.length : ℚ) - (countOverridden log : ℚ)) / (log.length : ℚ)) * 100)
  else none

/-- The analytics accuracy expression (`src/app.py` line 420):
`((total - overridden) / total) * 100 if total > 0 else 100`. -/
def analyticsAccuracy (log : List DecisionEntry) : ℚ :=
  if log.length > 0 then
    (((log.length : ℚ) - (countOverridden log : ℚ)) / (log.length : ℚ)) * 100
  else 100

/-- The analytics screen (`src/app.py` lines 413-434): when the ledger is
empty it shows only an informational message (`none`); otherwise it shows
the analytics accuracy. -/
def analyticsScreenAccuracy (log : List DecisionEntry) : Option ℚ :=
  if log.isEmpty then none else some (analyticsAccuracy log)

/-- `cluster_to_behavior` from `src/ai_model.py` lines 50-55. -/
def cluster_to_behavior : List (Nat × String) :=
  [(0, "Confirmation"), (1, "Objection"), (2, "Escalation"), (3, "New Information")]

/-- `df["cluster"].map(cluster_to_behavior)`: the behavior assigned to a
cluster index (`none` models pandas `NaN` for an unmapped index). -/
def behaviorOfCluster (c : Nat) : Option String :=
  (cluster_to_behavior.find? (fun p => p.1 == c)).map Prod.snd

/-- `behavior_to_action` from `src/ai_model.py` lines 57-62 (no `Unknown`
key and no fallback: it is applied via `pandas.Series.map`). -/
def behavior_to_action : List (String × String) :=
  [("Confirmation", "Close Ticket"), ("Objection", "Request Clarification"),
   ("Escalation", "Forward to Manager"), ("New Information", "Update Records")]

/-- A string is stable under every stage of `clean_text`: lowering,
boilerplate removal, URL removal, digit removal, punctuation deletion and
whitespace collapse/trim each leave it unchanged. -/
def StableClean (s : String) : Prop :=
  lowerStr s = s ∧ subTokensStr s = s ∧ urlSubStr s = s ∧ digitSubStr s = s ∧
  filterPunctStr s = s ∧ collapseStripStr s = s

instance (s : String) : Decidable (StableClean s) := by
  unfold StableClean
  infer_instance

instance {ε α : Type} [DecidableEq ε] [DecidableEq α] : DecidableEq (Except ε α) :=
  fun a b =>
    match a, b with
    | Except.error e, Except.error f =>
      if h : e = f then isTrue (congrArg Except.error h)
      else isFalse (fun hh => h (Except.error.inj hh))
    | Except.error _, Except.ok _ => isFalse (fun hh => Except.noConfusion hh)
    | Except.ok _, Except.error _ => isFalse (fun hh => Except.noConfusion hh)
    | Except.ok x, Except.ok y =>
      if h : x = y then isTrue (congrArg Except.ok h)
      else isFalse (fun hh => h (Except.ok.inj hh))

/-- A demonstration ledger: one approved and one overridden decision. -/
def demoLog : List DecisionEntry :=
  [approveEntry "T1" "Close Ticket" "alice" "2026-01-01T00:00:00+00:00" 85,
   overrideEntry "T2" "Close Ticket" "Escalate to Manager" "alice"
     "2026-01-01T00:05:00+00:00" 85]

/-- The category loop with early return equals "first list element whose
predicate holds, defaulting to Unknown". -/
theorem findCat_eq_find? (cs : List String) (t : String) :
    findCat cs t = ((cs.find? (fun c => wordOccursCI c t)).getD "Unknown") := by
  induction cs with
  | nil => rfl
  | cons c cs ih =>
    by_cases h : wordOccursCI c t
    · simp [findCat, List.find?_cons, h]
    · simp [findCat, List.find?_cons, h, ih]

/-- C1, counterexample.  The override dropdown offers every rule-table
action, including the one the AI suggested; choosing it produces a ledger
entry with `decision_status = "Overridden"` whose `final_action` equals
`ai_suggestion`, so the claimed equivalence fails on this entry. -/
theorem decision_status_iff_fails :
    "Close Ticket" ∈ overrideOptions defaultRules ∧
    (overrideEntry "T1" "Close Ticket" "Close Ticket" "alice"
        "2026-01-01T00:00:00+00:00" 85).decision_status = "Overridden" ∧
    (overrideEntry "T1" "Close Ticket" "Close Ticket" "alice"
        "2026-01-01T00:00:00+00:00" 85).final_action =
      (overrideEntry "T1" "Close Ticket" "Close Ticket" "alice"
        "2026-01-01T00:00:00+00:00" 85).ai_suggestion ∧
    ¬((overrideEntry "T1" "Close Ticket" "Close Ticket" "alice"
        "2026-01-01T00:00:00+00:00" 85).decision_status = "Overridden" ↔
      (overrideEntry "T1" "Close Ticket" "Close Ticket" "alice"
        "2026-01-01T00:00:00+00:00" 85).final_action ≠
        (overrideEntry "T1" "Close Ticket" "Close Ticket" "alice"
          "2026-01-01T00:00:00+00:00" 85).ai_suggestion) := by
  decide

/-- C1, amended.  `decision_status` records which button produced the
entry, not a comparison of actions: the approve path always writes
`"Approved"` with `final_action = ai_suggestion`; the override path always
writes `"Overridden"` with `final_action` equal to the selected override,
which may coincide with the suggestion. -/
theorem decision_status_by_button (tid s ov uid ts : String) (conf : Nat) :
    (approveEntry tid s uid ts conf).decision_status = "Approved" ∧
    (approveEntry tid s uid ts conf).final_action =
      (approveEntry tid s uid ts conf).ai_suggestion ∧
    (overrideEntry tid s ov uid ts conf).decision_status = "Overridden" ∧
    (overrideEntry tid s ov uid ts conf).final_action = ov ∧
    (overrideEntry tid s ov uid ts conf).ai_suggestion = s :=
  ⟨rfl, rfl, rfl, rfl, rfl⟩

/-- C2.  Resolution returns the table's action when the label is a key and
`"Review Manually"` otherwise; additionally, every behavior the clustering
script can produce is a key of its action table, so its fallback-free
`pandas.map` resolution is total there. -/
theorem resolve_lookup_spec (label : String) (rules : List (String × String)) :
    (∀ a, lookupRule rules label = some a → resolve label rules = a) ∧
    (lookupRule rules label = none → resolve label rules = "Review Manually") ∧
    (∀ b, b ∈ cluster_to_behavior.map Prod.snd → lookupRule behavior_to_action b ≠ none) := by
  refine ⟨?_, ?_, by decide⟩
  · intro a h
    unfold resolve
    rw [h]
    rfl
  · intro h
    unfold resolve
    rw [h]
    rfl

/-- C2, witness. -/
theorem resolve_lookup_spec_witness :
    resolve "Confirmation" defaultRules = "Close Ticket" ∧
    resolve "Escalation" defaultRules = "Review Manually" :=
  ⟨(resolve_lookup_spec "Confirmation" defaultRules).1 "Close Ticket" (by decide),
   (resolve_lookup_spec "Escalation" defaultRules).2.1 (by decide)⟩

/-- C3.  On a non-empty ledger both screens report
`(total - overridden) / total * 100`; on an empty ledger the dashboard
shows the `"N/A"` placeholder, the analytics screen shows no metric at all
(so the displayed empty-ledger value is consistently not-applicable), and
the guarded analytics expression still evaluates (to 100) without dividing
by zero. -/
theorem accuracy_metric_spec (log : List DecisionEntry) :
    (log ≠ [] →
      dashboardAccuracy log =
        some ((((log.length : ℚ) - (countOverridden log : ℚ)) / (log.length : ℚ)) * 100) ∧
      analyticsScreenAccuracy log = dashboardAccuracy log) ∧
    dashboardAccuracy [] = none ∧ analyticsScreenAccuracy [] = none ∧
    analyticsAccuracy [] = 100 := by
  refine ⟨?_, rfl, rfl, rfl⟩
  intro h
  have hlen : 0 < log.length := List.length_pos.mpr h
  constructor
  · simp [dashboardAccuracy, hlen]
  · simp [analyticsScreenAccuracy, analyticsAccuracy, dashboardAccuracy, hlen,
      List.isEmpty_iff, h]

/-- C3, witness: the two-entry demonstration ledger (one approved, one
overridden). -/
theorem accuracy_metric_spec_witness :
    dashboardAccuracy demoLog =
      some ((((demoLog.length : ℚ) - (countOverridden demoLog : ℚ)) /
        (demoLog.length : ℚ)) * 100) ∧
    analyticsScreenAccuracy demoLog = dashboardAccuracy demoLog :=
  (accuracy_metric_spec demoLog).1 (by decide)

/-- C4.  The extracted label is the first category, in the definition order
of `CATEGORIES`, whose name occurs in the response as a case-insensitive
whole-word match, and `"Unknown"` when no category name occurs. -/
theorem geminiExtract_first_word_match (text : String) :
    geminiExtract text =
      ((CATEGORIES.find? (fun c => wordOccursCI c text)).getD "Unknown") :=
  findCat_eq_find? CATEGORIES text

/-- C5, counterexample.  An exception raised by the remote call is not
caught: a batch whose first thread raises aborts with an error instead of
recording `"Unknown"` and continuing with the remaining thread. -/
theorem remote_error_aborts_batch :
    runPipelineLabels [RemoteOutcome.raised, RemoteOutcome.text "Confirmation"] =
      Except.error () ∧
    runPipelineLabels [RemoteOutcome.raised, RemoteOutcome.text "Confirmation"] ≠
      Except.ok ["Unknown", "Confirmation"] := by
  decide

/-- C5, amended.  Only a falsy or text-less remote response is recorded as
`"Unknown"` for that thread with the pipeline continuing; a raised
exception propagates and aborts the whole batch. -/
theorem remote_missing_text_is_unknown (rest : List RemoteOutcome) :
    geminiClassify RemoteOutcome.noText = Except.ok "Unknown" ∧
    runPipelineLabels (RemoteOutcome.noText :: rest) =
      (runPipelineLabels rest).map (fun ls => "Unknown" :: ls) ∧
    runPipelineLabels (RemoteOutcome.raised :: rest) = Except.error () := by
  have hu : geminiClassify RemoteOutcome.noText = Except.ok "Unknown" := by decide
  refine ⟨hu, ?_, rfl⟩
  cases h : runPipelineLabels rest with
  | error e => simp [runPipelineLabels, hu, h, Except.map]
  | ok ls => simp [runPipelineLabels, hu, h, Except.map]

/-- C6, counterexample.  The normalizer is not idempotent: deleting
punctuation can splice together a boilerplate token, which the next pass
removes.  `clean_text "t.hanks" = "thanks"` but
`clean_text "thanks" = ""`. -/
theorem clean_text_not_idempotent :
    clean_text (clean_text "t.hanks") ≠ clean_text "t.hanks" ∧
    clean_text "t.hanks" = "thanks" ∧
    clean_text (clean_text "t.hanks") = "" := by
  decide

/-- C6, amended.  The normalizer is idempotent on every input whose
normalized form is fixed by each normalization stage — which holds for
representative email texts — but not for all strings. -/
theorem clean_text_idem_of_stable (x : String) (h : StableClean (clean_text x)) :
    clean_text (clean_text x) = clean_text x := by
  obtain ⟨h1, h2, h3, h4, h5, h6⟩ := h
  calc clean_text (clean_text x)
      = collapseStripStr (filterPunctStr (digitSubStr (urlSubStr (subTokensStr
          (lowerStr (clean_text x)))))) := rfl
    _ = clean_text x := by rw [h1, h2, h3, h4, h5, h6]

/-- C6, witness: a representative email text with boilerplate, a URL,
digits and punctuation. -/
theorem clean_text_idem_of_stable_witness :
    StableClean (clean_text "Thanks! See www.foo.com, ref 123.") ∧
    clean_text (clean_text "Thanks! See www.foo.com, ref 123.") =
      clean_text "Thanks! See www.foo.com, ref 123." :=
  ⟨by decide, clean_text_idem_of_stable "Thanks! See www.foo.com, ref 123." (by decide)⟩

/-- C7.  Missing or non-list `messages` values, and empty message lists,
are coerced to the empty string before normalization, and normalizing the
empty string yields the empty string; both functions are total, so the
pipeline degrades gracefully instead of failing. -/
theorem normalize_degrades_to_empty (v : MsgsVal)
    (h : v = MsgsVal.notList ∨ v = MsgsVal.strList []) :
    email_text v = "" ∧ clean_text (email_text v) = "" := by
  rcases h with h | h <;> subst h <;> exact ⟨rfl, by decide⟩

/-- C7, witness. -/
theorem normalize_degrades_to_empty_witness :
    email_text MsgsVal.notList = "" ∧ clean_text (email_text MsgsVal.notList) = "" :=
  normalize_degrades_to_empty MsgsVal.notList (Or.inl rfl)

/-- C8, counterexample.  A thread with no messages does yield empty
`email_text`, but the clustering labeler of `src/ai_model.py` can never
output `"Unknown"`: no cluster maps to it. -/
theorem empty_thread_not_unknown_under_clustering :
    email_text (MsgsVal.strList []) = "" ∧
    "Unknown" ∉ cluster_to_behavior.map Prod.snd ∧
    behaviorOfCluster 0 = some "Confirmation" := by
  decide

/-- C8, amended.  A no-message thread yields empty `email_text` (and empty
normalized text) and still gets a prediction; under the clustering mapping
the behavior is one of the four cluster behaviors, never `"Unknown"`; and
the labels `"Unknown"` and `"Escalation"` resolve to `"Review Manually"`
under the default rule table. -/
theorem empty_thread_prediction (c : Nat) (b : String)
    (h : behaviorOfCluster c = some b) :
    email_text (MsgsVal.strList []) = "" ∧ clean_text "" = "" ∧
    b ∈ cluster_to_behavior.map Prod.snd ∧ b ≠ "Unknown" ∧
    resolve "Unknown" defaultRules = "Review Manually" ∧
    resolve "Escalation" defaultRules = "Review Manually" := by
  unfold behaviorOfCluster at h
  cases hf : List.find? (fun p => p.1 == c) cluster_to_behavior with
  | none => rw [hf] at h; cases h
  | some p =>
    rw [hf] at h
    injection h with h
    subst h
    have hmem : p ∈ cluster_to_behavior := List.mem_of_find?_eq_some hf
    refine ⟨rfl, by decide, List.mem_map_of_mem Prod.snd hmem, ?_, by decide, by decide⟩
    fin_cases hmem <;> decide

/-- C8, witness: cluster index 0. -/
theorem empty_thread_prediction_witness :
    email_text (MsgsVal.strList []) = "" ∧ clean_text "" = "" ∧
    "Confirmation" ∈ cluster_to_behavior.map Prod.snd ∧ "Confirmation" ≠ "Unknown" ∧
    resolve "Unknown" defaultRules = "Review Manually" ∧
    resolve "Escalation" defaultRules = "Review Manually" :=
  empty_thread_prediction 0 "Confirmation" (by decide)

/-- C9.  Appending one entry rewrites the ledger as the old list with
exactly the new entry at the end: every previously-written entry is
unchanged and in its original position, and exactly one entry is added. -/
theorem appendDecision_frame (log : List DecisionEntry) (e : DecisionEntry) :
    (appendDecision log e).take log.length = log ∧
    (appendDecision log e).drop log.length = [e] ∧
    (appendDecision log e).length = log.length + 1 := by
  refine ⟨?_, ?_, ?_⟩ <;> simp [appendDecision]

/-- C10.  The default rule table created at startup holds exactly the five
documented entries; `"Escalation"` and `"Unknown"` are not keys, so both
resolve to `"Review Manually"` under it. -/
theorem default_rules_content :
    defaultRules = [("Confirmation", "Close Ticket"), ("Objection", "Escalate to Manager"),
      ("New Information", "Request Additional Information"),
      ("Question", "Assign to Agent"), ("Other", "No Action")] ∧
    lookupRule defaultRules "Confirmation" = some "Close Ticket" ∧
    lookupRule defaultRules "Objection" = some "Escalate to Manager" ∧
    lookupRule defaultRules "New Information" = some "Request Additional Information" ∧
    lookupRule defaultRules "Question" = some "Assign to Agent" ∧
    lookupRule defaultRules "Other" = some "No Action" ∧
    lookupRule defaultRules "Escalation" = none ∧
    lookupRule defaultRules "Unknown" = none ∧
    resolve "Escalation" defaultRules = "Review Manually" ∧
    resolve "Unknown" defaultRules = "Review Manually" := by
  decide

end EBO
